import Mathlib

/-!
Shallow embedding of the WBUploadManager resolution-and-upload pipeline
(src/utils.rs, src/downloader.rs, src/uploader.rs, src/app.rs), together
with theorems settling the specification claims about it.

Modelling conventions:
* Rust strings are Lean `String`; `str::to_lowercase` is modelled char-wise
  (`Char.toLower`), and the byte slice `&s[p.len()..]` is modelled as a
  char-count drop — both coincide on the ASCII data the program handles.
* HTTP traffic is modelled by environment functions mapping an attempt index
  (and, where relevant, a root key) to the response the network would give;
  each model returns, besides the Rust function's result, the number of
  requests actually issued, so that claims about "no further request is sent"
  become statements about that count.
* Loops whose exit depends on a bounded counter are written with an explicit
  fuel argument that strictly exceeds the loop's iteration bound
  (`max_attempts` style loops run at most 4 iterations, pagination at most
  `entries.length + 1` pages), so every definition is kernel-computable.
* `usize` counters are `Nat`; `nmID` is `Int` (i64 in range for the claims).
-/

namespace WBUpload

/-- Lowercasing as in Rust `str::to_lowercase`, char-wise (ASCII-faithful). -/
def lowerStr (s : String) : String := String.mk (s.data.map Char.toLower)

/-- Models Rust `base_name.starts_with(p)` on our char-level strings. -/
def strPrefixOf (p s : String) : Bool := p.data.isPrefixOf s.data

/-- Models the Rust slice `&base_name[prefix.len()..]` (char-level drop). -/
def strDrop (s : String) (n : Nat) : String := String.mk (s.data.drop n)

/-- Models Rust `remaining.starts_with(a-dot)` at src/downloader.rs:234. -/
def startsWithDot (s : String) : Bool :=
  match s.data with
  | '.' :: _ => true
  | _ => false

/-- Models reqwest StatusCode::is_success (2xx). -/
def isSuccessStatus (s : Nat) : Bool := 200 ≤ s && s ≤ 299

/-! ## MediaClassifier (src/utils.rs, src/downloader.rs:224-243) -/

/-- Characters after the last dot of the list, if any (helper for
Path::extension). -/
def lastDotSplit : List Char → Option (List Char)
  | [] => none
  | c :: rest =>
    match lastDotSplit rest with
    | some e => some e
    | none => if c == '.' then some rest else none

/-- Models src/utils.rs is_media_file: the lowercase Path::extension must be
in the fixed allow-list. Rust yields None for a name whose only dot is the
leading one; that case and a missing dot both give the empty extension here,
which is not in the list. -/
def is_media_file (name : String) : Bool :=
  let ext :=
    match name.data with
    | [] => ""
    | _c0 :: rest =>
      match lastDotSplit rest with
      | some e => String.mk e
      | none => ""
  let ext := lowerStr ext
  ext == "png" || ext == "jpg" || ext == "jpeg" || ext == "gif" ||
    ext == "bmp" || ext == "webp" || ext == "mov" || ext == "mp4"

/-- Word character of the regex \w, restricted to ASCII as used by the data. -/
def isWordChar (c : Char) : Bool := c.isAlphanum || c == '_'

/-- Models the regex ^[_-](\d+)\.\w+$ of src/downloader.rs:232 applied to the
remainder: on a match, returns the captured digit group. -/
def remMatch (rem : List Char) : Option (List Char) :=
  match rem with
  | [] => none
  | c :: rest =>
    if c == '_' || c == '-' then
      let ds := rest.takeWhile Char.isDigit
      let tail := rest.dropWhile Char.isDigit
      if ds.isEmpty then none
      else
        match tail with
        | [] => none
        | t :: w => if t == '.' && !w.isEmpty && w.all isWordChar then some ds else none
    else none

/-- Models str::parse::<u32> on the captured digit string: fails (None) on an
empty string or on overflow past u32::MAX. -/
def parseU32 (ds : List Char) : Option Nat :=
  if ds.isEmpty then none
  else
    let n := ds.foldl (fun a c => a * 10 + (c.toNat - '0'.toNat)) 0
    if n < 4294967296 then some n else none

/-- Fold step for the longest-candidate selection: keep the argument when its
length is at least the current best's, as Rust max_by_key keeps the last
maximal element. -/
def pickLonger (a : Option String) (x : String) : Option String :=
  match a with
  | none => some x
  | some m => if m.length ≤ x.length then some x else some m

/-- Models Iterator::max_by_key(|p| p.len()) over a list of candidates. -/
def maxByLen (l : List String) : Option String := l.foldl pickLonger none

/-- Models the matched_prefix selection of src/downloader.rs:225-227: among
candidates whose lower-cased form prefixes the (lower-cased) filename, the
longest is kept. -/
def longestMatchedCode (codeList : List String) (baseName : String) : Option String :=
  maxByLen (codeList.filter (fun p => strPrefixOf (lowerStr p) baseName))

/-- Outcome of classifying one filename, keeping the two rejection reasons
apart exactly as the two distinct log messages in the source do. -/
inductive ClassifyResult where
  | matched (code : String) (photoNumber : Nat)
  | wrongPattern (code : String)
  | noPrefix
deriving DecidableEq

/-- Models the inline classification block of src/downloader.rs:224-243 (and
its copy in find_local_files): lower-case the name, select the longest
prefixing candidate, strip it, then decide the photo number from the
remainder. `wrongPattern` is the branch that logs "does not match the
pattern" and skips the file; `noPrefix` the branch that logs "does not start
with any vendorCode". -/
def classifyEx (fileName : String) (codeList : List String) : ClassifyResult :=
  let baseName := lowerStr fileName
  match longestMatchedCode codeList baseName with
  | some p =>
    let rem := strDrop baseName p.length
    match remMatch rem.data with
    | some ds => .matched p ((parseU32 ds).getD 1)
    | none => if startsWithDot rem then .matched p 1 else .wrongPattern p
  | none => .noPrefix

/-- The classifier as an Option-valued function (a rejected file is silently
absent from the enumeration results). -/
def classify (fileName : String) (codeList : List String) : Option (String × Nat) :=
  match classifyEx fileName codeList with
  | .matched c n => some (c, n)
  | _ => none

/-- Models the single-file-mode prefix selection of src/app.rs:392-395, which
uses Iterator::find (first candidate in list order), not max_by_key. -/
def singleFileMatchedCode (codeList : List String) (baseName : String) : Option String :=
  codeList.find? (fun p => strPrefixOf (lowerStr p) baseName)

/-- Models the single-file-mode classification of src/app.rs:392-434: same
remainder rule as the enumerator, but the prefix is the first match in list
order. (The vendor_codes_set membership check of src/app.rs:398 is vacuous
there because the candidate list is built from the same vendor codes.) -/
def singleFileClassifyEx (fileName : String) (codeList : List String) : ClassifyResult :=
  let baseName := lowerStr fileName
  match singleFileMatchedCode codeList baseName with
  | some p =>
    let rem := strDrop baseName p.length
    match remMatch rem.data with
    | some ds => .matched p ((parseU32 ds).getD 1)
    | none => if startsWithDot rem then .matched p 1 else .wrongPattern p
  | none => .noPrefix

/-! ## MediaUploader (src/uploader.rs) -/

/-- Search request body sent by get_nm_id_by_vendor_code
(src/uploader.rs:94-103): cursor limit, withPhoto filter, free-text search,
and the sort flag. -/
structure CardRequest where
  cursorLimit : Int
  withPhoto : Int
  textSearch : String
  ascending : Bool
deriving DecidableEq

/-- Models the request body construction of src/uploader.rs:94-103. -/
def cardRequest (vendorCode : String) : CardRequest :=
  ⟨100, -1, vendorCode, false⟩

/-- Parse result of the cards-list response body: either serde_json fails, or
it yields the list of nmID values in order. -/
inductive CardsBody where
  | malformed
  | cards (nmIds : List Int)
deriving DecidableEq

/-- Outcome of the single HTTP exchange performed by
get_nm_id_by_vendor_code: the send can fail at transport level, or a response
with some status arrives and its body parses (or not). -/
inductive CardsExchange where
  | sendErr
  | resp (status : Nat) (body : CardsBody)
deriving DecidableEq

/-- Error taxonomy of get_nm_id_by_vendor_code, one constructor per distinct
anyhow error site in src/uploader.rs:92-159. -/
inductive WbError where
  | sendFailed
  | apiError (status : Nat)
  | parseError
  | notFound
deriving DecidableEq

/-- Result of product-id resolution. -/
inductive NmResult where
  | ok (nmId : Int)
  | err (e : WbError)
deriving DecidableEq

/-- Models src/uploader.rs get_nm_id_by_vendor_code: one POST of the search
request (no retry loop), then: transport failure propagates; a non-2xx status
is an API error; a body that fails to parse is a protocol error; an empty
cards list is not-found; otherwise the first card's nmID is returned. -/
def get_nm_id_by_vendor_code (exch : CardsExchange) : NmResult :=
  match exch with
  | .sendErr => .err .sendFailed
  | .resp status body =>
    if isSuccessStatus status then
      match body with
      | .malformed => .err .parseError
      | .cards l =>
        match l with
        | [] => .err .notFound
        | c :: _ => .ok c
    else .err (.apiError status)

/-- Network outcome of one media-save or media-file POST: transport failure,
or a response with the given status (only the status drives the logic). -/
inductive UploadResp where
  | sendErr
  | resp (status : Nat)
deriving DecidableEq

/-- Upload error taxonomy of upload_links / upload_local_file. -/
inductive UploadErr where
  | invalidUrl (url : String)
  | fileNotFound
  | apiError (status : Nat)
  | exhausted
deriving DecidableEq

/-- Success-or-error result of an upload call. -/
inductive UpResult where
  | success
  | failure (e : UploadErr)
deriving DecidableEq

/-- What an upload call did: its result, the number of HTTP requests actually
sent, the number of 60-second sleeps performed, and the shared processed
counter afterwards. -/
structure UploadOutcome where
  result : UpResult
  requests : Nat
  sleeps : Nat
  processed : Nat
deriving DecidableEq

/-- The literal max_attempts = 3 of src/uploader.rs:179 and 295. -/
def max_attempts : Nat := 3

/-- Models the URL validation of src/uploader.rs:168-176: the URL must
start with one of the three accepted schemes. -/
def validUrl (u : String) : Bool :=
  strPrefixOf "http://" u || strPrefixOf "https://" u || strPrefixOf "file://" u

/-- Models the retry loop shared verbatim by upload_links
(src/uploader.rs:178-262) and upload_local_file (src/uploader.rs:294-398).
On each iteration one request is sent; a 2xx response increments the shared
processed counter and succeeds; a 429 (or a transport error) returns the
exhausted error if the attempts counter — checked BEFORE its end-of-loop
increment — has reached max_attempts, and otherwise sleeps 60 s and loops;
any other status fails immediately. The fuel argument only bounds the
recursion and strictly exceeds the loop's iteration bound at every call
site, so the fuel-0 branch is never taken. -/
def uploadLoop (resp : Nat → UploadResp) : Nat → Nat → Nat → UploadOutcome
  | 0, attempts, processed => ⟨.failure .exhausted, attempts, attempts, processed⟩
  | fuel + 1, attempts, processed =>
    match resp attempts with
    | .resp s =>
      if isSuccessStatus s then
        ⟨.success, attempts + 1, attempts, processed + 1⟩
      else if s == 429 then
        if attempts ≥ max_attempts then
          ⟨.failure .exhausted, attempts + 1, attempts, processed⟩
        else uploadLoop resp fuel (attempts + 1) processed
      else ⟨.failure (.apiError s), attempts + 1, attempts, processed⟩
    | .sendErr =>
      if attempts ≥ max_attempts then
        ⟨.failure .exhausted, attempts + 1, attempts, processed⟩
      else uploadLoop resp fuel (attempts + 1) processed

/-- Models src/uploader.rs upload_links: every URL must start with http://,
https:// or file:// — the first offender fails the call before any request
is sent — then the retry loop runs. -/
def upload_links (urls : List String) (resp : Nat → UploadResp) (processed : Nat) :
    UploadOutcome :=
  match urls.find? (fun u => !validUrl u) with
  | some u => ⟨.failure (.invalidUrl u), 0, 0, processed⟩
  | none => uploadLoop resp (max_attempts + 2) 0 processed

/-- Models src/uploader.rs upload_local_file: a missing file fails locally
before any request; otherwise the file is read and the same retry loop runs. -/
def upload_local_file (fileExists : Bool) (resp : Nat → UploadResp) (processed : Nat) :
    UploadOutcome :=
  if !fileExists then ⟨.failure .fileNotFound, 0, 0, processed⟩
  else uploadLoop resp (max_attempts + 2) 0 processed

/-! ## TreeEnumerator (src/downloader.rs find_files / find_files_for_url) -/

/-- One item of a remote listing page: a media-candidate file or a
subdirectory with its own listing (the type field of the Yandex API). -/
inductive Entry where
  | file (name : String)
  | dir (name : String) (entries : List Entry)

/-- The FileInfo record of src/downloader.rs:43-49. -/
structure FileInfo where
  name : String
  path : String
  local_path : String
  articul : String
  photo_number : Nat
deriving DecidableEq

/-- A listing request as issued by the walker: public key, path, offset. -/
abbrev Req := String × String × Nat

/-- Result of one path's (or the whole tree's) enumeration: the anyhow
Result of find_files_for_url / find_files. -/
inductive EnumResult where
  | ok (files : List FileInfo)
  | failed
deriving DecidableEq

/-- The page size limit = 100 of src/downloader.rs:139. -/
def pageLimit : Nat := 100

/-- Models HashSet::insert on the found-codes set (kept as a list). -/
def insertFound (c : String) (found : List String) : List String :=
  if found.contains c then found else found ++ [c]

/-- Models target_prefixes.is_subset(found_prefixes). -/
def subsetFound (targetCodes found : List String) : Bool :=
  targetCodes.all (found.contains ·)

/-- Models the item_path construction of src/downloader.rs:222. -/
def itemPath (path name : String) : String :=
  if path == "/" then "/" ++ name else path ++ "/" ++ name

/-- Models Path::join of the download directory and the item name
(src/downloader.rs:244). -/
def pathJoin (dir name : String) : String := dir ++ "/" ++ name

/-- The page of the listing at a given offset: the server returns at most
pageLimit items starting there (src/downloader.rs:142-144 with limit and
offset query parameters). -/
def pageOf (entries : List Entry) (offset : Nat) : List Entry :=
  (entries.drop offset).take pageLimit

/-- Models the per-item body of the pagination loop
(src/downloader.rs:221-267) on the accumulator (found set, files, queued
subdirectories): a media file is classified — note the source inserts the
matched code into found_prefixes BEFORE the remainder-pattern check, so a
wrongPattern file still marks its code as found — and a directory is queued
for descent after pagination. -/
def processItem (codeList : List String) (downloadPath path : String)
    (acc : List String × List FileInfo × List (String × List Entry)) (it : Entry) :
    List String × List FileInfo × List (String × List Entry) :=
  match it with
  | .file name =>
    if is_media_file name then
      match classifyEx name codeList with
      | .matched code n =>
        (insertFound code acc.1,
         acc.2.1 ++ [⟨name, itemPath path name, pathJoin downloadPath name, code, n⟩],
         acc.2.2)
      | .wrongPattern code => (insertFound code acc.1, acc.2.1, acc.2.2)
      | .noPrefix => acc
    else acc
  | .dir name sub => (acc.1, acc.2.1, acc.2.2 ++ [(itemPath path name, sub)])

/-- Models the pagination loop of src/downloader.rs:141-283 for one path,
assuming the network serves each page (failure injection is handled one
level up): fetch a page (recorded in the request log), stop on an empty
page, otherwise process its items, advance the offset by the limit, and stop
early when the target codes are all found — the superset check of
src/downloader.rs:276, made after every non-empty page. Returns the found
set, the request log, the files and the queued subdirectories. The fuel
strictly exceeds the page count bound entries.length + 1 supplied by the
caller, so the fuel-0 branch is never taken. -/
def paginate (codeList targetCodes : List String) (downloadPath key path : String)
    (entries : List Entry) :
    Nat → Nat → List String → List Req → List FileInfo →
    List (String × List Entry) →
    List String × List Req × List FileInfo × List (String × List Entry)
  | 0, _offset, found, reqs, files, subdirs => (found, reqs, files, subdirs)
  | fuel + 1, offset, found, reqs, files, subdirs =>
    let reqs := reqs ++ [(key, path, offset)]
    let page := pageOf entries offset
    if page.isEmpty then (found, reqs, files, subdirs)
    else
      let acc := page.foldl (processItem codeList downloadPath path) (found, files, subdirs)
      if subsetFound targetCodes acc.1 then (acc.1, reqs, acc.2.1, acc.2.2)
      else
        paginate codeList targetCodes downloadPath key path entries fuel
          (offset + pageLimit) acc.1 reqs acc.2.1 acc.2.2

/-- Models the queued-subdirectory loop of src/downloader.rs:285-313,
abstracted over the recursive walk: each subdirectory is walked in queue
order; a failed subdirectory is logged and skipped (its files are dropped,
but the shared found set and the requests it made persist); after every
subdirectory the superset check of src/downloader.rs:305 may stop the loop. -/
def walkSubdirsGen (targetCodes : List String)
    (walk : String → List Entry → List String → List Req →
      List String × List Req × EnumResult) :
    List (String × List Entry) → List String → List Req → List FileInfo →
    List String × List Req × EnumResult
  | [], found, reqs, files => (found, reqs, .ok files)
  | (p, es) :: rest, found, reqs, files =>
    let r := walk p es found reqs
    let files :=
      match r.2.2 with
      | .ok fs => files ++ fs
      | .failed => files
    if subsetFound targetCodes r.1 then (r.1, r.2.1, .ok files)
    else walkSubdirsGen targetCodes walk rest r.1 r.2.1 files

/-- Models find_files_for_url (src/downloader.rs:128-316) over a modelled
remote tree: paginate the current path, then descend into the queued
subdirectories. A path in failPaths stands for a path whose page fetch fails
(after the retry budget modelled separately by fetch_page); the attempted
request is recorded and the path's enumeration returns the error, which a
parent caller logs and skips. The fuel bounds the recursion depth and
strictly exceeds the (finite) tree depth at every call site. -/
def walkPath (codeList targetCodes : List String) (downloadPath : String)
    (failPaths : List String) (key : String) :
    Nat → String → List Entry → List String → List Req →
    List String × List Req × EnumResult
  | 0, _path, _entries, found, reqs => (found, reqs, .failed)
  | fuel + 1, path, entries, found, reqs =>
    if failPaths.contains path then (found, reqs ++ [(key, path, 0)], .failed)
    else
      let r := paginate codeList targetCodes downloadPath key path entries
        (entries.length + 1) 0 found reqs [] []
      walkSubdirsGen targetCodes
        (fun p es fd rq =>
          walkPath codeList targetCodes downloadPath failPaths key fuel p es fd rq)
        r.2.2.2 r.1 r.2.1 r.2.2.1

/-- Models the per-root loop of find_files (src/downloader.rs:95-126): each
public key's tree is enumerated from the root path; an error propagates (the
question-mark operator at src/downloader.rs:105); after each root the
superset check of src/downloader.rs:108 may stop before later roots are
touched. -/
def find_files_go (codeList : List String) (downloadPath : String)
    (failPaths : List String) (fuel : Nat) :
    List (String × List Entry) → List String → List Req → List FileInfo →
    List String × List Req × EnumResult
  | [], found, reqs, files => (found, reqs, .ok files)
  | (key, tree) :: rest, found, reqs, files =>
    let r := walkPath codeList codeList downloadPath failPaths key fuel "/" tree found reqs
    match r.2.2 with
    | .failed => (r.1, r.2.1, .failed)
    | .ok fs =>
      let files := files ++ fs
      if subsetFound codeList r.1 then (r.1, r.2.1, .ok files)
      else find_files_go codeList downloadPath failPaths fuel rest r.1 r.2.1 files

/-- Models find_files: the target set is the code list itself
(src/downloader.rs:98) and enumeration starts with an empty found set. -/
def find_files (fuel : Nat) (codeList : List String) (downloadPath : String)
    (failPaths : List String) (roots : List (String × List Entry)) :
    List String × List Req × EnumResult :=
  find_files_go codeList downloadPath failPaths fuel roots [] [] []

/-! ## Page-fetch retry policy (src/downloader.rs:154-206) -/

/-- Parse result of a listing response body. -/
inductive PageBody where
  | malformed
  | items (l : List Entry)

/-- Network outcome of one listing GET. -/
inductive PageResp where
  | transportErr
  | resp (status : Nat) (body : PageBody)

/-- Resolved outcome of one page fetch. -/
inductive PageResult where
  | ok (l : List Entry)
  | httpError (status : Nat)
  | parseError
  | transportExhausted

/-- Models the send-retry loop of src/downloader.rs:154-179: each transport
failure increments the attempts counter and, once it reaches max_attempts
(checked AFTER the increment), the fetch gives up; a received response exits
the loop at once. Returns the resolved response, if any, and the number of
requests sent. The fuel equals max_attempts and is never exhausted. -/
def fetchLoop (resp : Nat → PageResp) : Nat → Nat → Option (Nat × PageBody) × Nat
  | 0, attempts => (none, attempts)
  | fuel + 1, attempts =>
    match resp attempts with
    | .resp s b => (some (s, b), attempts + 1)
    | .transportErr =>
      if attempts + 1 ≥ max_attempts then (none, attempts + 1)
      else fetchLoop resp fuel (attempts + 1)

/-- Models one page fetch of find_files_for_url including status and parse
handling (src/downloader.rs:154-206): three transport failures fail the
path; once a response is received, a non-2xx status is a hard error with no
further retry; a 2xx body that fails to parse is a hard error. Besides the
result, the number of requests sent is returned. -/
def fetch_page (resp : Nat → PageResp) : PageResult × Nat :=
  let r := fetchLoop resp max_attempts 0
  match r.1 with
  | none => (.transportExhausted, r.2)
  | some (s, b) =>
    if isSuccessStatus s then
      match b with
      | .malformed => (.parseError, r.2)
      | .items l => (.ok l, r.2)
    else (.httpError s, r.2)

/-! ## LinkResolver (src/downloader.rs get_download_link:448-521) -/

/-- Parse result of a download-link response body. -/
inductive LinkBody where
  | malformed
  | withHref (href : String)
deriving DecidableEq

/-- Network outcome of one download-link GET. -/
inductive LinkResp where
  | transportErr
  | resp (status : Nat) (body : LinkBody)
deriving DecidableEq

/-- Outcome of the per-key attempt loop of get_download_link. -/
inductive LinkKeyOutcome where
  | success (href : String)
  | parseFail
  | giveUp
deriving DecidableEq

/-- Result of get_download_link. -/
inductive LinkResult where
  | ok (href : String)
  | protocolError
  | exhausted
deriving DecidableEq

/-- Models the inner attempt loop of get_download_link
(src/downloader.rs:466-518) for one public key: a 2xx response returns its
parsed href, or — when the body fails to parse — fails the WHOLE resolution
(the question-mark operator at src/downloader.rs:482); a 401 abandons this
key immediately without counting an attempt; any other status or a
transport error counts toward the 3-attempt budget (checked after the
increment) with a 5-second delay between attempts. Also returns the number
of requests sent for this key. Fuel as elsewhere. -/
def linkAttempts (resp : Nat → LinkResp) : Nat → Nat → LinkKeyOutcome × Nat
  | 0, attempts => (.giveUp, attempts)
  | fuel + 1, attempts =>
    match resp attempts with
    | .resp s b =>
      if isSuccessStatus s then
        match b with
        | .withHref h => (.success h, attempts + 1)
        | .malformed => (.parseFail, attempts + 1)
      else if s == 401 then (.giveUp, attempts + 1)
      else if attempts + 1 ≥ max_attempts then (.giveUp, attempts + 1)
      else linkAttempts resp fuel (attempts + 1)
    | .transportErr =>
      if attempts + 1 ≥ max_attempts then (.giveUp, attempts + 1)
      else linkAttempts resp fuel (attempts + 1)

/-- Models get_download_link (src/downloader.rs:448-521): the keys are tried
in order; a per-key success returns at once, a per-key parse failure fails
the whole call at once, and a per-key give-up (401 or exhausted budget)
falls through to the next key; with every key exhausted the final
resolution error is returned. Besides the result, the list of keys actually
queried with their request counts is returned, in order. -/
def get_download_link : List String → (String → Nat → LinkResp) →
    LinkResult × List (String × Nat)
  | [], _net => (.exhausted, [])
  | k :: rest, net =>
    let r := linkAttempts (net k) max_attempts 0
    match r.1 with
    | .success h => (.ok h, [(k, r.2)])
    | .parseFail => (.protocolError, [(k, r.2)])
    | .giveUp =>
      let t := get_download_link rest net
      (t.1, (k, r.2) :: t.2)

/-! ## Unsupported remote-write operations (src/downloader.rs:87-93,681-687) -/

/-- Log events of the two unsupported operations. -/
inductive LogEvent where
  | unsupportedUpload (localPath : String)
  | unsupportedCleanup (diskPath : String)
deriving DecidableEq

/-- Result of the unsupported operations: they only ever produce the
no-OAuth-token error. -/
inductive UnsupportedResult where
  | err
deriving DecidableEq

/-- Models upload_to_yandex_disk (src/downloader.rs:87-93): unconditionally
logs the unsupported-operation message and returns the error. -/
def upload_to_yandex_disk (localPath _diskPath : String) (logs : List LogEvent) :
    UnsupportedResult × List LogEvent :=
  (.err, logs ++ [.unsupportedUpload localPath])

/-- Models cleanup_yandex_disk (src/downloader.rs:681-687): unconditionally
logs the unsupported-operation message and returns the error. -/
def cleanup_yandex_disk (diskPath : String) (logs : List LogEvent) :
    UnsupportedResult × List LogEvent :=
  (.err, logs ++ [.unsupportedCleanup diskPath])

/-! ## Media batch construction (src/downloader.rs generate_media_json) -/

/-- Result of generate_media_json. -/
inductive MediaResult where
  | ok (urls : List String)
  | failed
deriving DecidableEq

/-- Accumulating loop of generate_media_json (src/downloader.rs:619-658):
with public keys present each file's path is resolved to a download link
(an error propagates); otherwise the staged local path is used with the
file:// scheme; an empty URL list at the end is an error. -/
def mediaUrlsGo (hasPublicKeys : Bool) (linkFor : String → LinkResult) :
    List FileInfo → List String → MediaResult
  | [], urls => if urls.isEmpty then .failed else .ok urls
  | f :: rest, urls =>
    if hasPublicKeys then
      match linkFor f.path with
      | .ok u => mediaUrlsGo hasPublicKeys linkFor rest (urls ++ [u])
      | _ => .failed
    else mediaUrlsGo hasPublicKeys linkFor rest (urls ++ ["file://" ++ f.local_path])

/-- Models generate_media_json, with link resolution abstracted as a
function from tree path to resolution result. -/
def generate_media_json (hasPublicKeys : Bool) (linkFor : String → LinkResult)
    (files : List FileInfo) : MediaResult :=
  mediaUrlsGo hasPublicKeys linkFor files []

/-! ## Orchestrator run loop (src/app.rs:717-846, remote mode) -/

/-- The run-progress fields of the shared state: the processed counter, the
total set at run start, and the failed vendor codes (src/app.rs:19-24). -/
structure RunState where
  processed : Nat
  total : Option Nat
  failed : List String
deriving DecidableEq

/-- Environment driving one vendor code's processing: the cards-list
exchange its product-id search gets, the link resolution its media batch
generation gets per tree path, and the network responses its upload
attempts get. -/
structure CodeEnv where
  cards : CardsExchange
  linkFor : String → LinkResult
  uploadResp : Nat → UploadResp

/-- Models one iteration of the remote-mode vendor-code loop
(src/app.rs:717-846): resolve the product id (failure records the code as
failed), filter the enumerated files to this code (an empty filter records
it as failed), build the media batch (failure records it as failed), upload
the links — upload_links increments the shared processed counter on success
(src/uploader.rs:204-206) — and finally increment the processed counter
once for the vendor code regardless of outcome (src/app.rs:829-831). -/
def processCode (env : CodeEnv) (files : List FileInfo) (vendorCode : String)
    (st : RunState) : RunState :=
  let st1 : RunState :=
    match get_nm_id_by_vendor_code env.cards with
    | .err _ => ⟨st.processed, st.total, st.failed ++ [vendorCode]⟩
    | .ok _nmId =>
      let relevant := files.filter (fun f => f.articul == vendorCode)
      if relevant.isEmpty then ⟨st.processed, st.total, st.failed ++ [vendorCode]⟩
      else
        match generate_media_json true env.linkFor relevant with
        | .failed => ⟨st.processed, st.total, st.failed ++ [vendorCode]⟩
        | .ok urls =>
          let out := upload_links urls env.uploadResp st.processed
          match out.result with
          | .success => ⟨out.processed, st.total, st.failed⟩
          | .failure _ => ⟨out.processed, st.total, st.failed ++ [vendorCode]⟩
  ⟨st1.processed + 1, st1.total, st1.failed⟩

/-- Models the remote-mode run over the vendor codes: the state is reset at
run start — processed zeroed, total set to the vendor-code count, failed
cleared (src/app.rs:332-335) — then each code is processed in input order. -/
def runRemote (envs : String → CodeEnv) (files : List FileInfo)
    (codes : List String) : RunState :=
  codes.foldl (fun st vc => processCode (envs vc) files vc st) ⟨0, some codes.length, []⟩

/-! ## Helper lemmas -/

/-- Folding pickLonger yields an element of the list (or the start value)
whose length bounds both every list element and the start value. -/
theorem foldl_pickLonger_spec (l : List String) :
    ∀ (a : Option String) (m : String), l.foldl pickLonger a = some m →
      (a = some m ∨ m ∈ l) ∧ (∀ x ∈ l, x.length ≤ m.length) ∧
        (∀ y, a = some y → y.length ≤ m.length) := by
  induction l with
  | nil =>
    intro a m h
    simp only [List.foldl_nil] at h
    exact ⟨Or.inl h, by simp, fun y hy => by rw [h] at hy; cases hy; exact le_refl _⟩
  | cons x l ih =>
    intro a m h
    simp only [List.foldl_cons] at h
    obtain ⟨h1, h2, h3⟩ := ih (pickLonger a x) m h
    have hx : x.length ≤ m.length := by
      cases a with
      | none => exact h3 x rfl
      | some b =>
        by_cases hb : b.length ≤ x.length
        · exact h3 x (by simp [pickLonger, hb])
        · exact le_trans (le_of_lt (lt_of_not_le hb)) (h3 b (by simp [pickLonger, hb]))
    refine ⟨?_, ?_, ?_⟩
    · cases a with
      | none =>
        rcases h1 with h1 | h1
        · simp [pickLonger] at h1
          exact Or.inr (by simp [h1])
        · exact Or.inr (List.mem_cons_of_mem _ h1)
      | some b =>
        by_cases hb : b.length ≤ x.length
        · rcases h1 with h1 | h1
          · simp [pickLonger, hb] at h1
            exact Or.inr (by simp [h1])
          · exact Or.inr (List.mem_cons_of_mem _ h1)
        · rcases h1 with h1 | h1
          · simp [pickLonger, hb] at h1
            exact Or.inl (by rw [h1])
          · exact Or.inr (List.mem_cons_of_mem _ h1)
    · intro z hz
      rcases List.mem_cons.mp hz with hz | hz
      · rw [hz]; exact hx
      · exact h2 z hz
    · intro y hy
      cases a with
      | none => cases hy
      | some b =>
        have hb' : b = y := by cases hy; rfl
        subst hb'
        by_cases hb : b.length ≤ x.length
        · exact le_trans hb hx
        · exact h3 b (by simp [pickLonger, hb])

/-- Folding pickLonger from a present start value always yields a value. -/
theorem foldl_pickLonger_isSome (l : List String) :
    ∀ a : String, ∃ m, l.foldl pickLonger (some a) = some m := by
  induction l with
  | nil => intro a; exact ⟨a, rfl⟩
  | cons x l ih =>
    intro a
    by_cases hb : a.length ≤ x.length
    · obtain ⟨m, hm⟩ := ih x
      exact ⟨m, by simpa [pickLonger, hb] using hm⟩
    · obtain ⟨m, hm⟩ := ih a
      exact ⟨m, by simpa [pickLonger, hb] using hm⟩

/-- A value selected by maxByLen is a member of maximal length. -/
theorem maxByLen_spec (l : List String) (m : String) (h : maxByLen l = some m) :
    m ∈ l ∧ ∀ x ∈ l, x.length ≤ m.length := by
  obtain ⟨h1, h2, _⟩ := foldl_pickLonger_spec l none m h
  exact ⟨h1.resolve_left (by simp), h2⟩

/-- maxByLen finds a value on any non-empty list. -/
theorem maxByLen_of_ne_nil (l : List String) (h : l ≠ []) :
    ∃ m, maxByLen l = some m := by
  match l with
  | [] => exact absurd rfl h
  | x :: t =>
    obtain ⟨m, hm⟩ := foldl_pickLonger_isSome t x
    exact ⟨m, by simpa [maxByLen, pickLonger] using hm⟩

/-- When no candidate's lower-cased form prefixes the base name, the
longest-match selection is empty. -/
theorem longestMatchedCode_none (codeList : List String) (baseName : String)
    (h : ∀ p ∈ codeList, strPrefixOf (lowerStr p) baseName = false) :
    longestMatchedCode codeList baseName = none := by
  unfold longestMatchedCode
  have : codeList.filter (fun p => strPrefixOf (lowerStr p) baseName) = [] :=
    List.filter_eq_nil_iff.mpr (by intro a ha; simp [h a ha])
  rw [this]; rfl

/-- When some candidate's lower-cased form prefixes the base name, the
longest-match selection picks a prefixing candidate of maximal length. -/
theorem longestMatchedCode_spec (codeList : List String) (baseName : String)
    (p₀ : String) (hmem : p₀ ∈ codeList)
    (hpre : strPrefixOf (lowerStr p₀) baseName = true) :
    ∃ p, longestMatchedCode codeList baseName = some p ∧ p ∈ codeList ∧
      strPrefixOf (lowerStr p) baseName = true ∧
      ∀ q ∈ codeList, strPrefixOf (lowerStr q) baseName = true →
        q.length ≤ p.length := by
  have hne : codeList.filter (fun p => strPrefixOf (lowerStr p) baseName) ≠ [] := by
    intro hnil
    have := List.filter_eq_nil_iff.mp hnil p₀ hmem
    simp [hpre] at this
  obtain ⟨m, hm⟩ := maxByLen_of_ne_nil _ hne
  obtain ⟨hmemf, hmax⟩ := maxByLen_spec _ m hm
  have hmf := List.mem_filter.mp hmemf
  refine ⟨m, hm, hmf.1, hmf.2, ?_⟩
  intro q hq hqpre
  exact hmax q (List.mem_filter.mpr ⟨hq, hqpre⟩)

/-! ## Claim C4 -/

/-- C4 counterexample: the claim says the longest case-insensitively
prefixing candidate is ALWAYS selected as the match, but the single-file
mode it also covers (src/app.rs:392-395) selects the FIRST candidate in
list order. For the filename ABC001.png and candidates abc plus abc001,
the single-file path selects abc although abc001 also prefixes and is
longer — and in consequence rejects the file, while the enumeration
classifier returns the longest match. -/
theorem c4_singleFile_selects_shorter_code :
    singleFileMatchedCode ["abc", "abc001"] (lowerStr "ABC001.png") = some "abc" ∧
    strPrefixOf (lowerStr "abc001") (lowerStr "ABC001.png") = true ∧
    "abc".length < "abc001".length ∧
    singleFileClassifyEx "ABC001.png" ["abc", "abc001"] = .wrongPattern "abc" ∧
    classifyEx "ABC001.png" ["abc", "abc001"] = .matched "abc001" 1 := by
  refine ⟨by decide, by decide, by decide, by decide, by decide⟩

/-- C4 amended: classify returns None when no candidate's lower-cased form
prefixes the lower-cased filename; when some candidate prefixes it, the
enumeration classifier (src/downloader.rs:224-243, used by both the remote
and the local tree walk) selects a prefixing candidate of maximal length,
and any successful classification carries exactly that selected code. The
single-file mode (src/app.rs:392-395) also returns None when no candidate
prefixes, but selects the first prefixing candidate in list order, which
need not be the longest. -/
theorem c4_classify_prefix_selection :
    (∀ f C, (∀ p ∈ C, strPrefixOf (lowerStr p) (lowerStr f) = false) →
      classifyEx f C = .noPrefix ∧ classify f C = none) ∧
    (∀ f C p₀, p₀ ∈ C → strPrefixOf (lowerStr p₀) (lowerStr f) = true →
      ∃ p, longestMatchedCode C (lowerStr f) = some p ∧ p ∈ C ∧
        strPrefixOf (lowerStr p) (lowerStr f) = true ∧
        ∀ q ∈ C, strPrefixOf (lowerStr q) (lowerStr f) = true →
          q.length ≤ p.length) ∧
    (∀ f C c n, classify f C = some (c, n) →
      longestMatchedCode C (lowerStr f) = some c) ∧
    (∀ f C, (∀ p ∈ C, strPrefixOf (lowerStr p) (lowerStr f) = false) →
      singleFileClassifyEx f C = .noPrefix) ∧
    (∀ f C p, singleFileMatchedCode C (lowerStr f) = some p →
      p ∈ C ∧ strPrefixOf (lowerStr p) (lowerStr f) = true) := by
  refine ⟨?_, ?_, ?_, ?_, ?_⟩
  · intro f C h
    have hn := longestMatchedCode_none C (lowerStr f) h
    constructor
    · simp [classifyEx, hn]
    · simp [classify, classifyEx, hn]
  · intro f C p₀ hmem hpre
    exact longestMatchedCode_spec C (lowerStr f) p₀ hmem hpre
  · intro f C c n h
    unfold classify classifyEx at h
    cases hl : longestMatchedCode C (lowerStr f) with
    | none => simp [hl] at h
    | some p =>
      simp only [hl] at h
      cases hr : remMatch ((strDrop (lowerStr f) p.length)).data with
      | some ds => simp [hr] at h; rw [h.1]
      | none =>
        by_cases hd : startsWithDot (strDrop (lowerStr f) p.length)
        · simp [hr, hd] at h; rw [h.1]
        · simp [hr, hd] at h
  · intro f C h
    unfold singleFileClassifyEx singleFileMatchedCode
    have : C.find? (fun p => strPrefixOf (lowerStr p) (lowerStr f)) = none :=
      List.find?_eq_none.mpr (by intro x hx; simp [h x hx])
    simp [this]
  · intro f C p h
    unfold singleFileMatchedCode at h
    have h2 := List.find?_some h
    exact ⟨List.mem_of_find?_eq_some h, by simpa using h2⟩

/-- C4 amended witness: the amended theorem applied at concrete inputs,
every hypothesis discharged by evaluation. -/
theorem c4_classify_prefix_selection_witness :
    (classifyEx "zzz.png" ["abc001"] = .noPrefix ∧
      classify "zzz.png" ["abc001"] = none) ∧
    (∃ p, longestMatchedCode ["abc", "abc001"] (lowerStr "ABC001_2.jpg") = some p ∧
      p ∈ ["abc", "abc001"] ∧
      strPrefixOf (lowerStr p) (lowerStr "ABC001_2.jpg") = true ∧
      ∀ q ∈ ["abc", "abc001"],
        strPrefixOf (lowerStr q) (lowerStr "ABC001_2.jpg") = true →
          q.length ≤ p.length) ∧
    longestMatchedCode ["abc001"] (lowerStr "ABC001_2.jpg") = some "abc001" ∧
    singleFileClassifyEx "zzz.png" ["abc001"] = .noPrefix ∧
    ("abc" ∈ ["abc", "abc001"] ∧
      strPrefixOf (lowerStr "abc") (lowerStr "ABC001.png") = true) :=
  ⟨c4_classify_prefix_selection.1 "zzz.png" ["abc001"] (by decide),
   c4_classify_prefix_selection.2.1 "ABC001_2.jpg" ["abc", "abc001"] "abc001"
     (by decide) (by decide),
   c4_classify_prefix_selection.2.2.1 "ABC001_2.jpg" ["abc001"] "abc001" 2 (by decide),
   c4_classify_prefix_selection.2.2.2.1 "zzz.png" ["abc001"] (by decide),
   c4_classify_prefix_selection.2.2.2.2 "ABC001.png" ["abc", "abc001"] "abc" (by decide)⟩

/-! ## Claim C5 -/

/-- C5: once the longest matching prefix is stripped from the lower-cased
filename, the remainder decides the classification: a remainder matching
the pattern underscore-or-dash, digits, dot, word-chars yields the parsed
photo number (1 when the digits fail to parse as u32); a remainder starting
with a dot yields photo number 1; any other remainder rejects the file with
the wrongPattern outcome, a distinct constructor from the no-prefix
outcome. The three concrete examples of the claim evaluate as stated. -/
theorem c5_remainder_pattern_rule :
    (∀ f C p, longestMatchedCode C (lowerStr f) = some p →
      (∀ ds, remMatch (strDrop (lowerStr f) p.length).data = some ds →
        classifyEx f C = .matched p ((parseU32 ds).getD 1)) ∧
      (remMatch (strDrop (lowerStr f) p.length).data = none →
        startsWithDot (strDrop (lowerStr f) p.length) = true →
        classifyEx f C = .matched p 1) ∧
      (remMatch (strDrop (lowerStr f) p.length).data = none →
        startsWithDot (strDrop (lowerStr f) p.length) = false →
        classifyEx f C = .wrongPattern p)) ∧
    classify "ABC001_2.jpg" ["abc001"] = some ("abc001", 2) ∧
    classify "ABC001.png" ["abc001"] = some ("abc001", 1) ∧
    classify "ABC0012.png" ["abc001"] = none ∧
    classifyEx "ABC0012.png" ["abc001"] = .wrongPattern "abc001" ∧
    ClassifyResult.wrongPattern "abc001" ≠ ClassifyResult.noPrefix := by
  refine ⟨?_, by decide, by decide, by decide, by decide, by decide⟩
  intro f C p hl
  refine ⟨?_, ?_, ?_⟩
  · intro ds hr
    simp [classifyEx, hl, hr]
  · intro hr hd
    simp [classifyEx, hl, hr, hd]
  · intro hr hd
    simp [classifyEx, hl, hr, hd]

/-- C5 witness: the general remainder rule applied at concrete inputs, the
hypotheses discharged by evaluation. -/
theorem c5_remainder_pattern_rule_witness :
    classifyEx "ABC001_23.jpg" ["abc001"] = .matched "abc001" 23 ∧
    classifyEx "ABC001.webp" ["abc001"] = .matched "abc001" 1 ∧
    classifyEx "ABC001x.png" ["abc001"] = .wrongPattern "abc001" :=
  ⟨by
    have h := (c5_remainder_pattern_rule.1 "ABC001_23.jpg" ["abc001"] "abc001"
      (by decide)).1 ['2', '3'] (by decide)
    simpa using h,
   (c5_remainder_pattern_rule.1 "ABC001.webp" ["abc001"] "abc001"
      (by decide)).2.1 (by decide) (by decide),
   (c5_remainder_pattern_rule.1 "ABC001x.png" ["abc001"] "abc001"
      (by decide)).2.2 (by decide) (by decide)⟩

/-! ## Claim C6 -/

/-- C6: the product-id search request carries the vendor code as free text
with limit 100, withPhoto -1 and descending (ascending = false) sort; the
single exchange resolves to the first result's nmID on a 2xx response with
a non-empty parsed cards list, and fails with not-found on an empty list,
with an API error on any non-2xx status, with a protocol error on an
unparseable 2xx body, and with a transport error on a failed send; a
product id is returned exactly in the first of these cases. -/
theorem c6_product_resolution_contract :
    (∀ vc, cardRequest vc = ⟨100, -1, vc, false⟩) ∧
    (∀ s c rest, isSuccessStatus s = true →
      get_nm_id_by_vendor_code (.resp s (.cards (c :: rest))) = .ok c) ∧
    (∀ s, isSuccessStatus s = true →
      get_nm_id_by_vendor_code (.resp s (.cards [])) = .err .notFound) ∧
    (∀ s, isSuccessStatus s = true →
      get_nm_id_by_vendor_code (.resp s .malformed) = .err .parseError) ∧
    (∀ s b, isSuccessStatus s = false →
      get_nm_id_by_vendor_code (.resp s b) = .err (.apiError s)) ∧
    get_nm_id_by_vendor_code .sendErr = .err .sendFailed ∧
    (∀ exch c, get_nm_id_by_vendor_code exch = .ok c →
      ∃ s rest, exch = .resp s (.cards (c :: rest)) ∧ isSuccessStatus s = true) := by
  refine ⟨fun vc => rfl, ?_, ?_, ?_, ?_, rfl, ?_⟩
  · intro s c rest h; simp [get_nm_id_by_vendor_code, h]
  · intro s h; simp [get_nm_id_by_vendor_code, h]
  · intro s h; simp [get_nm_id_by_vendor_code, h]
  · intro s b h; simp [get_nm_id_by_vendor_code, h]
  · intro exch c h
    cases exch with
    | sendErr => simp [get_nm_id_by_vendor_code] at h
    | resp s b =>
      by_cases hs : isSuccessStatus s
      · cases b with
        | malformed => simp [get_nm_id_by_vendor_code, hs] at h
        | cards l =>
          cases l with
          | nil => simp [get_nm_id_by_vendor_code, hs] at h
          | cons c0 rest =>
            simp [get_nm_id_by_vendor_code, hs] at h
            exact ⟨s, rest, by rw [h], hs⟩
      · simp [get_nm_id_by_vendor_code, hs] at h

/-- C6 witness: the contract applied at concrete statuses and bodies. -/
theorem c6_product_resolution_contract_witness :
    get_nm_id_by_vendor_code (.resp 200 (.cards [5, 9])) = .ok 5 ∧
    get_nm_id_by_vendor_code (.resp 200 (.cards [])) = .err .notFound ∧
    get_nm_id_by_vendor_code (.resp 200 .malformed) = .err .parseError ∧
    get_nm_id_by_vendor_code (.resp 404 (.cards [5])) = .err (.apiError 404) ∧
    (∃ s rest,
      (CardsExchange.resp 201 (.cards [8])) = .resp s (.cards (8 :: rest)) ∧
        isSuccessStatus s = true) :=
  ⟨c6_product_resolution_contract.2.1 200 5 [9] (by decide),
   c6_product_resolution_contract.2.2.1 200 (by decide),
   c6_product_resolution_contract.2.2.2.1 200 (by decide),
   c6_product_resolution_contract.2.2.2.2.1 404 (.cards [5]) (by decide),
   c6_product_resolution_contract.2.2.2.2.2.2 (.resp 201 (.cards [8])) 8
     (c6_product_resolution_contract.2.1 201 8 [] (by decide))⟩

/-! ## Claim C7 -/

/-- C7: when any URL in the list fails the scheme check, upload_links fails
locally — zero requests are sent, the shared processed counter is unchanged,
and the result is the invalid-URL error for some offending URL; in
particular a list containing ftp colon slash slash x is rejected this way. -/
theorem c7_url_validation_blocks_request :
    (∀ urls resp p u, u ∈ urls → validUrl u = false →
      (upload_links urls resp p).requests = 0 ∧
      (upload_links urls resp p).processed = p ∧
      ∃ w, w ∈ urls ∧ validUrl w = false ∧
        (upload_links urls resp p).result = .failure (.invalidUrl w)) ∧
    (∀ resp p,
      upload_links ["ftp://x"] resp p = ⟨.failure (.invalidUrl "ftp://x"), 0, 0, p⟩) := by
  constructor
  · intro urls resp p u hmem hinv
    have hsome : (urls.find? (fun u => !validUrl u)).isSome = true :=
      List.find?_isSome.mpr ⟨u, hmem, by simp [hinv]⟩
    obtain ⟨w, hw⟩ := Option.isSome_iff_exists.mp hsome
    have hwmem := List.mem_of_find?_eq_some hw
    have hwinv : validUrl w = false := by
      have := List.find?_some hw
      simpa using this
    refine ⟨?_, ?_, w, hwmem, hwinv, ?_⟩ <;> simp [upload_links, hw]
  · intro resp p
    have h : (["ftp://x"].find? (fun u => !validUrl u)) = some "ftp://x" := by decide
    simp [upload_links, h]

/-- C7 witness: the validation theorem applied to a two-element list whose
second URL is invalid, hypotheses discharged by evaluation. -/
theorem c7_url_validation_blocks_request_witness :
    (upload_links ["https://ok", "ftp://x"] (fun _ => .resp 200) 3).requests = 0 ∧
    (upload_links ["https://ok", "ftp://x"] (fun _ => .resp 200) 3).processed = 3 ∧
    ∃ w, w ∈ ["https://ok", "ftp://x"] ∧ validUrl w = false ∧
      (upload_links ["https://ok", "ftp://x"] (fun _ => .resp 200) 3).result =
        .failure (.invalidUrl w) :=
  c7_url_validation_blocks_request.1 ["https://ok", "ftp://x"] (fun _ => .resp 200) 3
    "ftp://x" (by decide) (by decide)

/-! ## Claim C2 -/

/-- C2 is a code bug: the retry loops of upload_links and upload_local_file
check the attempts counter BEFORE its end-of-loop increment
(src/uploader.rs:215,242,349,378), so three consecutive 429 responses do
not exhaust the budget — a fourth request is sent after a third 60-second
sleep, and the call fails (with the after-3-attempts error message) only
after the fourth response, contradicting the claimed at-most-3 attempts.
The first conjunct shows the four requests on persistent 429; the remaining
conjuncts confirm the parts of the claim the code does satisfy: 429 twice
then 200 succeeds with exactly 2 delayed retries and a single counter
increment; any other non-2xx fails at once with no retry and no increment;
transport errors behave like 429 (including the off-by-one); a missing
local file fails before any request. -/
theorem c2_upload_retry_off_by_one :
    upload_links ["https://a"] (fun _ => .resp 429) 0 =
      ⟨.failure .exhausted, 4, 3, 0⟩ ∧
    upload_links ["https://a"] (fun i => if i < 2 then .resp 429 else .resp 200) 5 =
      ⟨.success, 3, 2, 6⟩ ∧
    upload_links ["https://a"] (fun _ => .resp 500) 7 =
      ⟨.failure (.apiError 500), 1, 0, 7⟩ ∧
    upload_links ["https://a"] (fun _ => .sendErr) 0 =
      ⟨.failure .exhausted, 4, 3, 0⟩ ∧
    upload_local_file true (fun _ => .resp 429) 0 =
      ⟨.failure .exhausted, 4, 3, 0⟩ ∧
    upload_local_file false (fun _ => .resp 200) 3 =
      ⟨.failure .fileNotFound, 0, 0, 3⟩ := by
  refine ⟨by decide, by decide, by decide, by decide, by decide, by decide⟩

/-! ## Claim C1 -/

/-- C1 is a code bug: the shared processed counter is incremented BOTH by
upload_links on success (src/uploader.rs:204-206) AND once per vendor code
by the orchestrator loop (src/app.rs:829-831), so a fully successful remote
run over one vendor code ends with processedCount = 2 while totalCount was
set to 1 at run start — the counter exceeds totalCount and does not equal
the vendor-code count, contradicting the claimed single per-code increment
and the never-exceeds invariant (the monotonicity part alone does hold, as
the counter is only ever incremented). -/
theorem c1_processed_counter_double_increment :
    runRemote
        (fun _ => ⟨.resp 200 (.cards [7]), fun _ => .ok "https://x", fun _ => .resp 200⟩)
        [⟨"a.png", "/a.png", "dl/a.png", "a", 1⟩] ["a"] =
      ⟨2, some 1, []⟩ ∧
    1 < (runRemote
        (fun _ => ⟨.resp 200 (.cards [7]), fun _ => .ok "https://x", fun _ => .resp 200⟩)
        [⟨"a.png", "/a.png", "dl/a.png", "a", 1⟩] ["a"]).processed := by
  refine ⟨by decide, by decide⟩

/-! ## Claim C3 -/

/-- C3 counterexample: over the tree whose root page holds the single
target file abc001.png and a directory sub, the found set is already a
superset of the target set when pagination of the root stops (first
conjunct), so sub is unvisited at the moment the condition becomes true —
yet the walk still issues a listing request for /sub (second conjunct): the
subdirectory loop of src/downloader.rs:285-313 only performs the superset
check AFTER recursing into a queued subdirectory, so the first queued
subdirectory is listed even when the condition already holds. -/
theorem c3_unvisited_subdir_still_listed :
    subsetFound ["abc001"]
      (paginate ["abc001"] ["abc001"] "dl" "k" "/"
        [Entry.file "abc001.png", Entry.dir "sub" []] 3 0 [] [] [] []).1 = true ∧
    (find_files 5 ["abc001"] "dl" []
        [("k", [Entry.file "abc001.png", Entry.dir "sub" []])]).2.1 =
      [("k", "/", 0), ("k", "/sub", 0)] := by
  refine ⟨by decide, by decide⟩

/-- C3 amended: the superset check is made after every page (stopping
pagination of the current path) and after every completed subdirectory
(stopping further recursion), and between roots; once the condition holds,
all LATER sibling subdirectories and all roots not yet started are never
listed — but the check does not run between the end of pagination and the
first queued subdirectory, so the first queued subdirectory of a path whose
pagination made the condition true is still recursed into and listed. The
first conjunct is the specification's mock-tree test (the match is found in
the first directory, the second larger directory is never listed); the
second states generally that once the first root makes the condition true
the later roots are never consulted; the third states generally that once a
subdirectory's completion makes the condition true the later sibling
subdirectories are never consulted. -/
theorem c3_early_termination_scope :
    ((find_files 5 ["abc001"] "dl" []
        [("k", [Entry.dir "d1" [Entry.file "abc001.png"],
                Entry.dir "d2" [Entry.file "zzz.png", Entry.file "yyy.png"]])]).2.1 =
      [("k", "/", 0), ("k", "/", 100), ("k", "/d1", 0)]) ∧
    (∀ fuel cl dp fp k t rest,
      subsetFound cl (walkPath cl cl dp fp k fuel "/" t [] []).1 = true →
      find_files fuel cl dp fp ((k, t) :: rest) = find_files fuel cl dp fp [(k, t)]) ∧
    (∀ tg walk p es rest found reqs files,
      subsetFound tg (walk p es found reqs).1 = true →
      walkSubdirsGen tg walk ((p, es) :: rest) found reqs files =
        walkSubdirsGen tg walk [(p, es)] found reqs files) := by
  refine ⟨by decide, ?_, ?_⟩
  · intro fuel cl dp fp k t rest h
    unfold find_files find_files_go
    cases hr : (walkPath cl cl dp fp k fuel "/" t [] []).2.2 with
    | ok fs => simp [hr, h]
    | failed => simp [hr]
  · intro tg walk p es rest found reqs files h
    unfold walkSubdirsGen
    cases hr : (walk p es found reqs).2.2 with
    | ok fs => simp [hr, h]
    | failed => simp [hr, h]

/-- C3 amended witness: the two general clauses applied at concrete trees,
hypotheses discharged by evaluation. A second root and a second sibling
subdirectory drop out of the walk once the first made the condition true. -/
theorem c3_early_termination_scope_witness :
    find_files 5 ["abc001"] "dl" []
        [("k1", [Entry.file "abc001.png"]), ("k2", [Entry.file "zzz.png"])] =
      find_files 5 ["abc001"] "dl" [] [("k1", [Entry.file "abc001.png"])] ∧
    walkSubdirsGen ["abc001"]
        (fun p es fd rq => walkPath ["abc001"] ["abc001"] "dl" [] "k" 4 p es fd rq)
        [("/d1", [Entry.file "abc001.png"]), ("/d2", [Entry.file "zzz.png"])] [] [] [] =
      walkSubdirsGen ["abc001"]
        (fun p es fd rq => walkPath ["abc001"] ["abc001"] "dl" [] "k" 4 p es fd rq)
        [("/d1", [Entry.file "abc001.png"])] [] [] [] :=
  ⟨c3_early_termination_scope.2.1 5 ["abc001"] "dl" [] "k1"
      [Entry.file "abc001.png"] [("k2", [Entry.file "zzz.png"])] (by decide),
   c3_early_termination_scope.2.2 ["abc001"]
      (fun p es fd rq => walkPath ["abc001"] ["abc001"] "dl" [] "k" 4 p es fd rq)
      "/d1" [Entry.file "abc001.png"] [("/d2", [Entry.file "zzz.png"])] [] [] []
      (by decide)⟩

/-! ## Claim C8 -/

/-- C8: each page fetch retries transport failures with a fixed delay and
gives up after exactly 3 attempts — the check at src/downloader.rs:169 runs
AFTER the increment, so three transport failures mean three requests and no
fourth (first conjunct, requests = 3); a non-2xx status received on the
first response is a hard error after exactly one request, with no retry
(second conjunct); the third conjunct shows on a concrete tree that a
failing queued subdirectory is skipped and enumeration still returns the
other subdirectory's file, while the fourth shows that the same failure on
the enumeration's root path propagates and fails find_files. -/
theorem c8_page_fetch_failure_policy :
    (∀ resp, resp 0 = PageResp.transportErr → resp 1 = PageResp.transportErr →
      resp 2 = PageResp.transportErr →
      fetch_page resp = (PageResult.transportExhausted, 3)) ∧
    (∀ resp s b, resp 0 = PageResp.resp s b → isSuccessStatus s = false →
      fetch_page resp = (PageResult.httpError s, 1)) ∧
    ((find_files 5 ["xyz001"] "dl" ["/bad"]
        [("k", [Entry.dir "bad" [], Entry.dir "good" [Entry.file "xyz001.png"]])]).2.2 =
      EnumResult.ok [⟨"xyz001.png", "/good/xyz001.png", "dl/xyz001.png", "xyz001", 1⟩]) ∧
    ((find_files 5 ["xyz001"] "dl" ["/"]
        [("k", [Entry.dir "bad" [], Entry.dir "good" [Entry.file "xyz001.png"]])]).2.2 =
      EnumResult.failed) := by
  refine ⟨?_, ?_, by decide, by decide⟩
  · intro resp h0 h1 h2
    simp [fetch_page, fetchLoop, max_attempts, h0, h1, h2]
  · intro resp s b h0 hs
    simp [fetch_page, fetchLoop, max_attempts, h0, hs]

/-- C8 witness: the two retry-policy clauses applied to concrete response
sequences. -/
theorem c8_page_fetch_failure_policy_witness :
    fetch_page (fun _ => PageResp.transportErr) = (PageResult.transportExhausted, 3) ∧
    fetch_page (fun _ => PageResp.resp 500 PageBody.malformed) =
      (PageResult.httpError 500, 1) :=
  ⟨c8_page_fetch_failure_policy.1 (fun _ => PageResp.transportErr) rfl rfl rfl,
   c8_page_fetch_failure_policy.2.1 (fun _ => PageResp.resp 500 PageBody.malformed)
     500 PageBody.malformed rfl (by decide)⟩

/-! ## Claim C9 -/

/-- C9: for every input, the upload-to-remote-tree and
cleanup-of-remote-tree operations append their failure message to the log
and return the hard error — neither ever succeeds or leaves the log
untouched. -/
theorem c9_remote_write_unsupported :
    ∀ localPath diskPath logs,
      upload_to_yandex_disk localPath diskPath logs =
        (UnsupportedResult.err, logs ++ [LogEvent.unsupportedUpload localPath]) ∧
      cleanup_yandex_disk diskPath logs =
        (UnsupportedResult.err, logs ++ [LogEvent.unsupportedCleanup diskPath]) ∧
      (upload_to_yandex_disk localPath diskPath logs).2 ≠ logs ∧
      (cleanup_yandex_disk diskPath logs).2 ≠ logs := by
  intro localPath diskPath logs
  refine ⟨rfl, rfl, ?_, ?_⟩ <;>
    simp [upload_to_yandex_disk, cleanup_yandex_disk]

/-! ## Claim C10 -/

/-- C10: in get_download_link, a root whose attempt loop ends in a parse
failure — a 2xx response with a body that does not parse to an href, which
the first and second clauses show happens at whatever attempt the 2xx
arrives — fails the whole resolution immediately: the result is the
protocol error and the request log shows no key after the failing one
(first clause). By contrast a root that keeps answering with a non-2xx,
non-401 status exhausts its 3-attempt budget and falls through to the next
root (fourth clause), a 401 abandons the root after a single request
(fifth clause), and only after every root has fallen through does the
final all-roots-exhausted error appear (sixth clause). -/
theorem c10_parse_error_aborts_resolution :
    (∀ net (k : String) rest n,
      linkAttempts (net k) max_attempts 0 = (LinkKeyOutcome.parseFail, n) →
      get_download_link (k :: rest) net = (LinkResult.protocolError, [(k, n)])) ∧
    (∀ resp s, isSuccessStatus s = true → resp 0 = LinkResp.resp s LinkBody.malformed →
      linkAttempts resp max_attempts 0 = (LinkKeyOutcome.parseFail, 1)) ∧
    (∀ resp s, resp 0 = LinkResp.transportErr →
      resp 1 = LinkResp.resp s LinkBody.malformed → isSuccessStatus s = true →
      linkAttempts resp max_attempts 0 = (LinkKeyOutcome.parseFail, 2)) ∧
    (∀ net (k : String) rest s b, isSuccessStatus s = false → (s == 401) = false →
      (∀ i, net k i = LinkResp.resp s b) →
      get_download_link (k :: rest) net =
        ((get_download_link rest net).1, (k, 3) :: (get_download_link rest net).2)) ∧
    (∀ net (k : String) rest b, net k 0 = LinkResp.resp 401 b →
      get_download_link (k :: rest) net =
        ((get_download_link rest net).1, (k, 1) :: (get_download_link rest net).2)) ∧
    (∀ net, get_download_link [] net = (LinkResult.exhausted, [])) := by
  refine ⟨?_, ?_, ?_, ?_, ?_, fun net => rfl⟩
  · intro net k rest n h
    simp [get_download_link, h]
  · intro resp s hs h0
    simp [linkAttempts, max_attempts, h0, hs]
  · intro resp s h0 h1 hs
    simp [linkAttempts, max_attempts, h0, h1, hs]
  · intro net k rest s b hs h401 hnet
    have hla : linkAttempts (net k) max_attempts 0 = (LinkKeyOutcome.giveUp, 3) := by
      simp [linkAttempts, max_attempts, hnet 0, hnet 1, hnet 2, hs, h401]
    simp [get_download_link, hla]
  · intro net k rest b h0
    have hla : linkAttempts (net k) max_attempts 0 = (LinkKeyOutcome.giveUp, 1) := by
      simp [linkAttempts, max_attempts, h0, isSuccessStatus]
    simp [get_download_link, hla]

/-- C10 witness: the clauses applied at concrete keys, statuses and
response sequences. -/
theorem c10_parse_error_aborts_resolution_witness :
    get_download_link ["k1", "k2"] (fun _ _ => LinkResp.resp 200 LinkBody.malformed) =
      (LinkResult.protocolError, [("k1", 1)]) ∧
    linkAttempts (fun i => if i == 0 then LinkResp.transportErr
        else LinkResp.resp 200 LinkBody.malformed) max_attempts 0 =
      (LinkKeyOutcome.parseFail, 2) ∧
    get_download_link ["k1"] (fun _ _ => LinkResp.resp 500 LinkBody.malformed) =
      ((get_download_link [] (fun _ _ => LinkResp.resp 500 LinkBody.malformed)).1,
        ("k1", 3) ::
          (get_download_link [] (fun _ _ => LinkResp.resp 500 LinkBody.malformed)).2) ∧
    get_download_link ["k1"] (fun _ _ => LinkResp.resp 401 LinkBody.malformed) =
      ((get_download_link [] (fun _ _ => LinkResp.resp 401 LinkBody.malformed)).1,
        ("k1", 1) ::
          (get_download_link [] (fun _ _ => LinkResp.resp 401 LinkBody.malformed)).2) :=
  ⟨c10_parse_error_aborts_resolution.1 (fun _ _ => LinkResp.resp 200 LinkBody.malformed)
      "k1" ["k2"] 1
      (c10_parse_error_aborts_resolution.2.1
        (fun _ => LinkResp.resp 200 LinkBody.malformed) 200 (by decide) rfl),
   c10_parse_error_aborts_resolution.2.2.1
      (fun i => if i == 0 then LinkResp.transportErr
        else LinkResp.resp 200 LinkBody.malformed) 200 rfl rfl (by decide),
   c10_parse_error_aborts_resolution.2.2.2.1
      (fun _ _ => LinkResp.resp 500 LinkBody.malformed) "k1" [] 500 LinkBody.malformed
      (by decide) (by decide) (fun i => rfl),
   c10_parse_error_aborts_resolution.2.2.2.2.1
      (fun _ _ => LinkResp.resp 401 LinkBody.malformed) "k1" [] LinkBody.malformed rfl⟩

end WBUpload
